import Mathlib

/-!
Verification of the retrieval-and-tool-orchestration core of a RAG
(course-materials question answering) system.

Python strings are modelled as `List Char` (`PyStr`); machine integers as
`Nat`; fallible lookups as `Option`.  Pure helper functions in
`backend/utils.py` are embedded directly from the source.  The remaining
components (semantic store, search/outline tools, tool registry, reasoning
orchestrator, session store, query coordinator) are present in the
repository only through their tests; their definitions below are modelled
from the specification document, with the embedding/vector index and the
external reasoning engine treated as black-box parameters (an abstract
distance function, respectively an abstract response function).
-/

namespace RagSpec

/-- Python `str` modelled as a list of characters. -/
abbrev PyStr := List Char

/-! ## backend/utils.py -/

/-- Embeds `utils.format_response`: return `text` unchanged when its length
is at most `max_length`, otherwise the first `max_length` characters
followed by `"..."`. -/
def format_response (text : PyStr) (max_length : Nat := 500) : PyStr :=
  if text.length ≤ max_length then text
  else text.take max_length ++ "...".data

/-- Whitespace as recognised by Python's `str.strip()` (ASCII part). -/
def isPySpace (c : Char) : Bool :=
  c = ' ' || c = '\t' || c = '\n' || c = '\r' || c = '\x0b' || c = '\x0c'

/-- Python `str.strip()`: drop whitespace from both ends. -/
def pyStrip (s : PyStr) : PyStr :=
  ((s.dropWhile isPySpace).reverse.dropWhile isPySpace).reverse

/-- Embeds `utils.validate_query`: reject empty or all-whitespace queries
and queries longer than 1000 characters; accept everything else.  The
Lean function is total, mirroring that the Python function never raises
on a string input. -/
def validate_query (query : PyStr) : Bool :=
  if query.isEmpty || (pyStrip query).isEmpty then false
  else if 1000 < query.length then false
  else true

/-! ## Data model (spec §3) -/

/-- A lesson of a course (spec §3). -/
structure Lesson where
  lesson_number : Nat
  title : PyStr
  lesson_link : Option PyStr
deriving DecidableEq

/-- A course: title is the sole identity key (spec §3). -/
structure Course where
  title : PyStr
  course_link : Option PyStr
  instructor : Option PyStr
  lessons : List Lesson
deriving DecidableEq

/-- A chunk of course content (spec §3); `lesson_number` is optional
because a chunk may be course-level. -/
structure CourseChunk where
  content : PyStr
  course_title : PyStr
  lesson_number : Option Nat
  chunk_index : Nat
deriving DecidableEq

/-- The metadata mapping stored with each content-index entry. -/
structure ChunkMeta where
  course_title : PyStr
  lesson_number : Option Nat
  chunk_index : Nat
deriving DecidableEq

/-- Transient search result value: parallel sequences of documents,
metadata and distance scores, plus an optional error string (spec §3). -/
structure SearchResults where
  documents : List PyStr
  metadata : List ChunkMeta
  distances : List Nat
  error : Option PyStr
deriving DecidableEq

/-! ## Semantic Store (spec §4.1)

Modelled from the spec: the repository's `vector_store.py` is not under
`src/` (only its tests are).  The embedding model and vector index are
black boxes (spec §6), modelled as an abstract distance function `dist`
on character strings together with a similarity `threshold` for fuzzy
course-name resolution. -/

/-- Modelled from the spec: the Semantic Store (`VectorStore`), holding
the course catalog, the content index, the configured maximum result
count, and the black-box embedding distance with resolution threshold. -/
structure VectorStore where
  catalog : List Course
  content : List CourseChunk
  max_results : Nat
  dist : PyStr → PyStr → Nat
  threshold : Nat

/-- Nearest catalog entry to `name` by embedding distance (black-box
nearest-neighbor query with `n_results = 1`). -/
def nearestCourse (s : VectorStore) (name : PyStr) : Option Course :=
  s.catalog.foldl
    (fun acc c =>
      match acc with
      | none => some c
      | some b => if s.dist name c.title < s.dist name b.title then some c else some b)
    none

/-- Modelled from the spec: `VectorStore._resolve_course_name` — fuzzy
resolution by embedding-similarity nearest neighbor against the catalog,
returning the single closest title if it is within the similarity
threshold, and `none` if the catalog is empty or no candidate is within
threshold (spec §4.1). -/
def resolve_course_name (s : VectorStore) (name : PyStr) : Option PyStr :=
  match nearestCourse s name with
  | none => none
  | some c => if s.dist name c.title ≤ s.threshold then some c.title else none

/-- The error message carried by a search whose course filter failed to
resolve. -/
def noCourseMsg (name : PyStr) : PyStr :=
  "No course found matching '".data ++ name ++ "'".data

/-- The metadata equality filter on content chunks: resolved course title
and/or lesson number, ANDed when both are given (spec §4.1). -/
def chunkFilter (resolved : Option PyStr) (lesson : Option Nat) (ch : CourseChunk) : Bool :=
  (match resolved with
   | some t => ch.course_title == t
   | none => true) &&
  (match lesson with
   | some k => ch.lesson_number == some k
   | none => true)

/-- Nearest-neighbor content search: filter by metadata, order by
increasing embedding distance to the query, return up to `limit`
(default: the configured max results). -/
def searchChunks (s : VectorStore) (query : PyStr) (resolved : Option PyStr)
    (lesson : Option Nat) (limit : Option Nat) : SearchResults :=
  let filtered := s.content.filter (chunkFilter resolved lesson)
  let sorted := List.insertionSort
    (fun a b => s.dist query a.content ≤ s.dist query b.content) filtered
  let top := sorted.take (limit.getD s.max_results)
  { documents := top.map (fun ch => ch.content)
    metadata := top.map (fun ch => ⟨ch.course_title, ch.lesson_number, ch.chunk_index⟩)
    distances := top.map (fun ch => s.dist query ch.content)
    error := none }

/-- Modelled from the spec: `VectorStore.search` — resolves the course
name (if given) against the catalog; on resolution failure returns a
result carrying the "No course found matching" error and no documents (a
normal, non-fatal outcome — the Lean function is total, mirroring that
store operations never raise for "no match"); otherwise performs the
filtered nearest-neighbor content search (spec §4.1). -/
def search (s : VectorStore) (query : PyStr) (course_name : Option PyStr)
    (lesson_number : Option Nat) (limit : Option Nat) : SearchResults :=
  match course_name with
  | none => searchChunks s query none lesson_number limit
  | some name =>
    match resolve_course_name s name with
    | none => { documents := [], metadata := [], distances := [], error := some (noCourseMsg name) }
    | some t => searchChunks s query (some t) lesson_number limit

/-- Modelled from the spec: `VectorStore.get_course_link` — metadata
lookup returning `none` when absent (spec §4.1). -/
def get_course_link (s : VectorStore) (title : PyStr) : Option PyStr :=
  match s.catalog.find? (fun c => c.title == title) with
  | some c => c.course_link
  | none => none

/-- Modelled from the spec: `VectorStore.get_lesson_link` — metadata
lookup returning `none` when absent (spec §4.1). -/
def get_lesson_link (s : VectorStore) (title : PyStr) (n : Nat) : Option PyStr :=
  match s.catalog.find? (fun c => c.title == title) with
  | some c =>
    match c.lessons.find? (fun l => l.lesson_number == n) with
    | some l => l.lesson_link
    | none => none
  | none => none

/-! ## Search Tool and Outline Tool (spec §4.2, §4.3)

Modelled from the spec: the repository's `search_tools.py` is not under
`src/` (only its tests are). -/

/-- A source citation: display text plus optional link (spec §3). -/
structure Source where
  text : PyStr
  link : Option PyStr
deriving DecidableEq

/-- Decimal rendering of a natural number (fuel-based, kernel-reducible). -/
def natToStr (n : Nat) : PyStr := Nat.toDigits 10 n

/-- The citation produced for one matched chunk: text is
`"<course> - Lesson <n>"` (or just the course title when the chunk is
course-level); link is the lesson link if resolvable, else the course
link if resolvable, else none (spec §4.2). -/
def sourceOfMeta (s : VectorStore) (m : ChunkMeta) : Source :=
  { text := m.course_title ++
      (match m.lesson_number with
       | some n => " - Lesson ".data ++ natToStr n
       | none => [])
    link :=
      match m.lesson_number with
      | some n =>
        match get_lesson_link s m.course_title n with
        | some l => some l
        | none => get_course_link s m.course_title
      | none => get_course_link s m.course_title }

/-- The bracketed label heading one formatted result block (spec §4.2). -/
def formatBlockHeader (m : ChunkMeta) : PyStr :=
  "[".data ++ m.course_title ++
    (match m.lesson_number with
     | some n => " - Lesson ".data ++ natToStr n
     | none => []) ++ "]".data

/-- Join blocks with blank lines between them. -/
def joinBlocks : List PyStr → PyStr
  | [] => []
  | [b] => b
  | b :: rest => b ++ "\n\n".data ++ joinBlocks rest

/-- The formatted text of a successful search: one labelled block per
matched chunk, blocks separated by blank lines (spec §4.2). -/
def formatResults (r : SearchResults) : PyStr :=
  joinBlocks ((r.metadata.zip r.documents).map
    (fun md => formatBlockHeader md.1 ++ "\n".data ++ md.2))

/-- The sentinel message for an empty, non-erroring search, embedding the
active filters (spec §4.2). -/
def emptyMsg (course_name : Option PyStr) (lesson : Option Nat) : PyStr :=
  "No relevant content found".data ++
    (match course_name with
     | some n => " in course '".data ++ n ++ "'".data
     | none => []) ++
    (match lesson with
     | some k => " in lesson ".data ++ natToStr k
     | none => []) ++ ".".data

/-- Modelled from the spec: `CourseSearchTool.execute` — delegates to the
Semantic Store's `search`; returns a store-carried error verbatim,
returns the filter-embedding sentinel when the result is empty with no
error, and otherwise returns the formatted blocks while overwriting
`last_sources` with one citation per matched chunk (last-call-wins, spec
§4.2).  The pair returned is (formatted output, new `last_sources`). -/
def searchToolExecute (s : VectorStore) (last_sources : List Source) (query : PyStr)
    (course_name : Option PyStr) (lesson_number : Option Nat) : PyStr × List Source :=
  let results := search s query course_name lesson_number none
  match results.error with
  | some err => (err, last_sources)
  | none =>
    if results.documents.isEmpty then
      (emptyMsg course_name lesson_number, last_sources)
    else
      (formatResults results, results.metadata.map (sourceOfMeta s))

/-- Lessons in ascending lesson-number order. -/
def sortLessons (ls : List Lesson) : List Lesson :=
  List.insertionSort (fun a b => a.lesson_number ≤ b.lesson_number) ls

/-- One outline line `"Lesson <n>: <title>"` (spec §4.3). -/
def renderLesson (l : Lesson) : PyStr :=
  "Lesson ".data ++ natToStr l.lesson_number ++ ": ".data ++ l.title

/-- Join lines with a newline between them. -/
def joinLines : List PyStr → PyStr
  | [] => []
  | [x] => x
  | x :: rest => x ++ "\n".data ++ joinLines rest

/-- The outline block: course title, course link (if present), and each
lesson as `"Lesson <n>: <title>"` in ascending lesson-number order
(spec §4.3). -/
def renderOutline (c : Course) : PyStr :=
  joinLines (c.title ::
    ((match c.course_link with
      | some l => ["Course Link: ".data ++ l]
      | none => []) ++ (sortLessons c.lessons).map renderLesson))

/-- Modelled from the spec: `CourseOutlineTool.execute` — resolves the
course name via the same fuzzy mechanism as the Search Tool; on failure
returns "No course found matching '<name>'"; on success renders the
outline.  It does not populate `last_sources` (spec §4.3). -/
def outlineToolExecute (s : VectorStore) (course_name : PyStr) : PyStr :=
  match resolve_course_name s course_name with
  | none => noCourseMsg course_name
  | some t =>
    match s.catalog.find? (fun c => c.title == t) with
    | some c => renderOutline c
    | none => noCourseMsg course_name

/-! ## Tool Registry (spec §4.4)

Modelled from the spec: the registry holds the search and outline tools
(both wrapping one Semantic Store) and aggregates "last sources"; only
the search tool populates sources. -/

/-- The structured input of a tool invocation. -/
structure ToolInput where
  query : PyStr
  course_name : Option PyStr
  lesson_number : Option Nat
deriving DecidableEq

/-- Modelled from the spec: the Tool Registry (`ToolManager`) with its
registered tools' shared store and the mutable "last sources" slot. -/
structure ToolManager where
  store : VectorStore
  searchSources : List Source

/-- The "tool not found" signal for unknown names (spec §4.4). -/
def toolNotFoundMsg (name : PyStr) : PyStr :=
  "Tool '".data ++ name ++ "' not found".data

/-- Modelled from the spec: `ToolManager.execute_tool` — dispatches by
name to the search or outline tool, returning the tool's formatted
string and the updated registry state; unknown names yield the "tool not
found" signal as a normal return (spec §4.4). -/
def execute_tool (tm : ToolManager) (name : PyStr) (input : ToolInput) :
    PyStr × ToolManager :=
  if name == "search_course_content".data then
    let out := searchToolExecute tm.store tm.searchSources input.query
      input.course_name input.lesson_number
    (out.1, { tm with searchSources := out.2 })
  else if name == "get_course_outline".data then
    (outlineToolExecute tm.store (input.course_name.getD []), tm)
  else
    (toolNotFoundMsg name, tm)

/-- Modelled from the spec: `ToolManager.get_last_sources` (spec §4.4). -/
def get_last_sources (tm : ToolManager) : List Source := tm.searchSources

/-- Modelled from the spec: `ToolManager.reset_sources` (spec §4.4). -/
def reset_sources (tm : ToolManager) : ToolManager := { tm with searchSources := [] }

/-! ## Reasoning Orchestrator (spec §4.5)

Modelled from the spec: the repository's `ai_generator.py` is not under
`src/` (only its tests are).  The external reasoning engine is a black
box (spec §6): a response is decoded once at the boundary into a tagged
variant, and a call with tools disabled must produce a terminal answer,
which the model encodes by giving the tools-disabled call the answer
type directly. -/

/-- Message roles of the engine protocol. -/
inductive Role
  | user
  | assistant
deriving DecidableEq

/-- One tool invocation request: invocation id, tool name, structured
input (spec §4.5). -/
structure ToolCall where
  id : PyStr
  name : PyStr
  input : ToolInput
deriving DecidableEq

/-- A content block of a protocol message. -/
inductive Block
  | text (t : PyStr)
  | toolUse (id : PyStr) (name : PyStr) (input : ToolInput)
  | toolResult (tool_use_id : PyStr) (content : PyStr)
deriving DecidableEq

/-- A protocol message: role plus content blocks. -/
structure Message where
  role : Role
  content : List Block
deriving DecidableEq

/-- A decoded engine response: either a final answer or a set of tool
invocation requests (spec §6, §9). -/
inductive EngineResponse
  | answer (text : PyStr)
  | toolUse (calls : List ToolCall)

/-- The black-box reasoning engine: `withTools` answers a call made with
tool schemas and automatic tool choice; `noTools` answers the forced
final call with tools disabled, which must produce a terminal answer
(spec §4.5, §6). -/
structure Engine where
  withTools : List Message → EngineResponse
  noTools : List Message → PyStr

/-- Dispatch every invocation of one round through the Tool Registry in
order, producing one `tool_result` block per invocation (preserving the
invocation id) and the final registry state (spec §4.5). -/
def dispatchCalls (tm : ToolManager) : List ToolCall → List Block × ToolManager
  | [] => ([], tm)
  | c :: rest =>
    let out := execute_tool tm c.name c.input
    let restOut := dispatchCalls out.2 rest
    (Block.toolResult c.id out.1 :: restOut.1, restOut.2)

/-- The assistant turn echoing the engine's tool requests. -/
def assistantToolMessage (calls : List ToolCall) : Message :=
  ⟨Role.assistant, calls.map (fun c => Block.toolUse c.id c.name c.input)⟩

/-- The user turn carrying all tool results of one round (spec §4.5). -/
def toolResultsMessage (blocks : List Block) : Message :=
  ⟨Role.user, blocks⟩

/-- Modelled from the spec: the Orchestrator's bounded round loop
(spec §4.5).  With fuel `n` remaining, invoke the engine with tools; a
direct answer is terminal; a tool-use response is dispatched, its
results appended as a final user message, and the loop repeats.  At fuel
0 (round limit reached) a final call with tools disabled is forced and
its output returned.  Besides the answer and final registry state, the
function returns the trace of the message lists sent on each engine
call, so that call counts and message shapes can be stated. -/
def runRounds (engine : Engine) :
    Nat → ToolManager → List Message → PyStr × ToolManager × List (List Message)
  | 0, tm, msgs => (engine.noTools msgs, tm, [msgs])
  | n + 1, tm, msgs =>
    match engine.withTools msgs with
    | .answer t => (t, tm, [msgs])
    | .toolUse calls =>
      let out := dispatchCalls tm calls
      let next := msgs ++ [assistantToolMessage calls, toolResultsMessage out.1]
      let rec_ := runRounds engine n out.2 next
      (rec_.1, rec_.2.1, msgs :: rec_.2.2)

/-- Projection pulling the invocation id out of a `tool_result` block. -/
def blockResultId : Block → Option PyStr
  | Block.toolResult i _ => some i
  | _ => none

/-- The configured maximum number of tool-use rounds (spec §4.5 gives 2
as the example bound). -/
def MAX_TOOL_ROUNDS : Nat := 2

/-- Modelled from the spec: `AIGenerator.generate_response` — compose the
outgoing messages from prior history plus the user query and drive the
bounded tool-calling loop (spec §4.5). -/
def generate_response (engine : Engine) (tm : ToolManager) (history : List Message)
    (query : PyStr) (maxRounds : Nat := MAX_TOOL_ROUNDS) :
    PyStr × ToolManager × List (List Message) :=
  runRounds engine maxRounds tm (history ++ [⟨Role.user, [Block.text query]⟩])

/-! ## Session Store (spec §4.6)

Modelled from the spec: the repository's `session_manager.py` is not
under `src/`.  The store maps a session identifier to its bounded
exchange history. -/

/-- One user+assistant exchange pair. -/
abbrev Exchange := PyStr × PyStr

/-- The process-wide session state: session id to exchange history. -/
def SessionStore := Nat → List Exchange

/-- Append one pair to one history, evicting the oldest pair when the
configured bound is exceeded (FIFO eviction, spec §4.6). -/
def pushExchange (bound : Nat) (h : List Exchange) (u a : PyStr) : List Exchange :=
  let grown := h ++ [(u, a)]
  if bound < grown.length then grown.drop (grown.length - bound) else grown

/-- Modelled from the spec: `SessionManager.add_exchange` — appends one
user+assistant pair to the identified session's history, evicting the
oldest pair when the bound is exceeded; other sessions are untouched
(spec §4.6). -/
def add_exchange (bound : Nat) (st : SessionStore) (id : Nat) (u a : PyStr) :
    SessionStore :=
  fun j => if j = id then pushExchange bound (st j) u a else st j

/-- The empty session store. -/
def emptySessions : SessionStore := fun _ => []

/-! ## Query Coordinator (spec §4.7)

Modelled from the spec: the repository's `rag_system.py` is not under
`src/` (only its tests are). -/

/-- Modelled from the spec: `RAGSystem.query` — reset the registry's
tracked sources, invoke the Reasoning Orchestrator, read back the last
sources as this answer's citations, and return (answer, sources)
together with the final registry state (spec §4.7). -/
def ragQuery (engine : Engine) (maxRounds : Nat) (tm : ToolManager)
    (history : List Message) (queryText : PyStr) :
    PyStr × List Source × ToolManager :=
  let tm0 := reset_sources tm
  let out := generate_response engine tm0 history queryText maxRounds
  (out.1, get_last_sources out.2.1, out.2.1)

/-! ## Concrete fixtures

The corpus of the repository's test suite (`conftest.py`): one course
"Test Course on AI" with three lessons and five content chunks, plus a
concrete stand-in for the black-box embedding distance (case-insensitive
substring containment) used to instantiate witnesses. -/

/-- Does `hay` start with `needle`? -/
def startsWith : PyStr → PyStr → Bool
  | [], _ => true
  | _ :: _, [] => false
  | n :: ns, h :: hs => n == h && startsWith ns hs

/-- Index of the first occurrence of `needle` in `hay`, if any. -/
def findSub (needle : PyStr) : PyStr → Option Nat
  | [] => if startsWith needle [] then some 0 else none
  | c :: rest =>
    if startsWith needle (c :: rest) then some 0
    else (findSub needle rest).map (· + 1)

/-- Substring containment. -/
def isSubstrOf (needle hay : PyStr) : Bool :=
  (findSub needle hay).isSome

/-- Each listed needle occurs in the haystack, each strictly after the
end of the previous needle's occurrence (relative order). -/
def containsInOrder : List PyStr → PyStr → Bool
  | [], _ => true
  | n :: rest, hay =>
    match findSub n hay with
    | none => false
    | some i => containsInOrder rest (hay.drop (i + n.length))

/-- Lower-cased copy of a string. -/
def toLowerStr (s : PyStr) : PyStr := s.map Char.toLower

/-- A concrete stand-in for the black-box embedding distance: distance 0
when either lower-cased string contains the other, 1000 otherwise. -/
def testDist (q t : PyStr) : Nat :=
  if isSubstrOf (toLowerStr q) (toLowerStr t) || isSubstrOf (toLowerStr t) (toLowerStr q)
  then 0 else 1000

/-- The test course of `conftest.py`: "Test Course on AI" with lessons
0, 1, 2. -/
def testCourse : Course :=
  { title := "Test Course on AI".data
    course_link := some "https://example.com/course".data
    instructor := some "Test Instructor".data
    lessons :=
      [ { lesson_number := 0
          title := "Introduction to AI".data
          lesson_link := some "https://example.com/lesson/0".data },
        { lesson_number := 1
          title := "Machine Learning Basics".data
          lesson_link := some "https://example.com/lesson/1".data },
        { lesson_number := 2
          title := "Deep Learning Fundamentals".data
          lesson_link := some "https://example.com/lesson/2".data } ] }

/-- The five content chunks of `conftest.py` (contents abbreviated to
their distinguishing phrases). -/
def testChunks : List CourseChunk :=
  [ { content := "Artificial Intelligence is the simulation of human intelligence by machines.".data
      course_title := "Test Course on AI".data
      lesson_number := some 0
      chunk_index := 0 },
    { content := "AI has many applications including natural language processing.".data
      course_title := "Test Course on AI".data
      lesson_number := some 0
      chunk_index := 1 },
    { content := "Machine Learning is a subset of AI that enables systems to learn from data.".data
      course_title := "Test Course on AI".data
      lesson_number := some 1
      chunk_index := 2 },
    { content := "Unsupervised learning finds patterns in unlabeled data.".data
      course_title := "Test Course on AI".data
      lesson_number := some 1
      chunk_index := 3 },
    { content := "Deep Learning uses neural networks with multiple layers.".data
      course_title := "Test Course on AI".data
      lesson_number := some 2
      chunk_index := 4 } ]

/-- The populated test store (`vector_store_with_data`): the test course
and its chunks, `max_results = 5`, the concrete distance stand-in, and
threshold 500. -/
def testStore : VectorStore :=
  { catalog := [testCourse]
    content := testChunks
    max_results := 5
    dist := testDist
    threshold := 500 }

/-- A registry over the test store with no tracked sources. -/
def testManager : ToolManager :=
  { store := testStore, searchSources := [] }

/-- A stub reasoning engine that requests tool use on every call made
with tools enabled and produces a fixed non-empty answer when tools are
disabled. -/
def stubToolEngine : Engine :=
  { withTools := fun _ => EngineResponse.toolUse
      [ { id := "tool_123".data
          name := "search_course_content".data
          input := { query := "machine learning".data, course_name := none, lesson_number := none } } ]
    noTools := fun _ => "Machine Learning is a subset of AI.".data }

/-- The two tool invocations of the multiple-tool-calls test: a content
search and an outline request. -/
def stubTwoCalls : List ToolCall :=
  [ { id := "tool_1".data
      name := "search_course_content".data
      input := { query := "machine learning".data, course_name := none, lesson_number := none } },
    { id := "tool_2".data
      name := "get_course_outline".data
      input := { query := [], course_name := some "Test Course".data, lesson_number := none } } ]

/-- A stub engine whose first-round response carries two tool
invocations and which answers directly when tools are disabled. -/
def stubTwoCallEngine : Engine :=
  { withTools := fun _ => EngineResponse.toolUse stubTwoCalls
    noTools := fun _ => "Combined results from both tools".data }

/-- A concrete interleaved operation sequence: three exchanges added to
session 0 and one to session 1. -/
def sessionOpsFix : List (Nat × Exchange) :=
  [ (0, ("u1".data, "a1".data)),
    (1, ("x1".data, "y1".data)),
    (0, ("u2".data, "a2".data)),
    (0, ("u3".data, "a3".data)) ]

/-! ## Helper lemmas about stripping -/

theorem dropWhile_eq_nil_iff_all (p : Char → Bool) :
    ∀ l : PyStr, l.dropWhile p = [] ↔ ∀ c ∈ l, p c = true := by
  intro l
  induction l with
  | nil => simp [List.dropWhile]
  | cons a l ih =>
    simp only [List.dropWhile]
    by_cases h : p a
    · simp [h, ih]
    · simp only [h]
      constructor
      · intro hcon
        exact absurd hcon (List.cons_ne_nil a l)
      · intro hall
        exact absurd (hall a (List.mem_cons_self a l)) (by simp [h])

theorem pyStrip_eq_nil_iff (q : PyStr) :
    pyStrip q = [] ↔ ∀ c ∈ q, isPySpace c = true := by
  unfold pyStrip
  rw [List.reverse_eq_nil_iff, dropWhile_eq_nil_iff_all]
  constructor
  · intro h c hc
    have hsplit := List.takeWhile_append_dropWhile (p := isPySpace) (l := q)
    rw [← hsplit] at hc
    rcases List.mem_append.mp hc with h1 | h2
    · exact List.mem_takeWhile_imp h1
    · exact h c (List.mem_reverse.mpr h2)
  · intro h c hc
    exact h c ((List.dropWhile_sublist (p := isPySpace)).subset (List.mem_reverse.mp hc))

/-- C9: `format_response` returns `text` unchanged when
`len(text) <= max_length`, and otherwise returns the first `max_length`
characters of `text` followed by `"..."`; in the truncation case the
output has length `max_length + 3`, which strictly exceeds `max_length`
(the length the docstring advertises as the maximum). -/
theorem format_response_truncation (text : PyStr) (max_length : Nat) :
    (text.length ≤ max_length → format_response text max_length = text) ∧
      (max_length < text.length →
        format_response text max_length = text.take max_length ++ "...".data ∧
        (format_response text max_length).length = max_length + 3 ∧
        max_length < (format_response text max_length).length) := by
  constructor
  · intro h
    simp [format_response, h]
  · intro h
    have hnle : ¬ text.length ≤ max_length := by omega
    have hform : format_response text max_length = text.take max_length ++ "...".data := by
      simp [format_response, hnle]
    have hdots : ("...".data).length = 3 := rfl
    refine ⟨hform, ?_, ?_⟩
    · rw [hform, List.length_append, List.length_take, hdots]
      omega
    · rw [hform, List.length_append, List.length_take, hdots]
      omega

/-- Witness for C9: evaluates both branches at concrete inputs. -/
theorem format_response_truncation_witness :
    format_response "hi".data 10 = "hi".data ∧
      (format_response "hello".data 3).length = 3 + 3 :=
  ⟨(format_response_truncation "hi".data 10).1 (by decide),
    ((format_response_truncation "hello".data 3).2 (by decide)).2.1⟩

/-- C10: `validate_query` returns `True` iff the query is non-empty,
contains at least one non-whitespace character, and has length at most
1000.  Totality (never raising) is inherent in the embedding: the
function is a total Lean function on all character lists. -/
theorem validate_query_iff_valid (q : PyStr) :
    validate_query q = true ↔
      q ≠ [] ∧ (∃ c ∈ q, isPySpace c = false) ∧ q.length ≤ 1000 := by
  unfold validate_query
  split_ifs with h1 h2
  · simp only [Bool.or_eq_true, List.isEmpty_iff] at h1
    constructor
    · intro hfalse
      simp at hfalse
    · rintro ⟨hne, ⟨c, hc, hcf⟩, -⟩
      rcases h1 with h | h
      · exact hne h
      · have hsp := (pyStrip_eq_nil_iff q).mp h c hc
        rw [hsp] at hcf
        cases hcf
  · constructor
    · intro hfalse
      simp at hfalse
    · rintro ⟨-, -, hlen⟩
      exfalso
      omega
  · simp only [Bool.or_eq_true, List.isEmpty_iff] at h1
    push_neg at h1
    obtain ⟨hne, hs⟩ := h1
    refine iff_of_true rfl ⟨hne, ?_, by omega⟩
    by_contra hnex
    push_neg at hnex
    simp only [Bool.not_eq_false] at hnex
    apply hs
    rw [pyStrip_eq_nil_iff]
    exact hnex

/-- Witness for C10: the characterisation evaluated at a concrete
query. -/
theorem validate_query_iff_valid_witness :
    validate_query "What is AI?".data = true ↔
      "What is AI?".data ≠ [] ∧
        (∃ c ∈ "What is AI?".data, isPySpace c = false) ∧
        ("What is AI?".data).length ≤ 1000 :=
  validate_query_iff_valid "What is AI?".data


/-! ## Helper lemmas about resolution and search -/

theorem foldl_nearest_mem (dist : PyStr → Nat) :
    ∀ (l : List Course) (acc : Option Course) (c : Course),
      List.foldl
        (fun acc c =>
          match acc with
          | none => some c
          | some b => if dist c.title < dist b.title then some c else some b)
        acc l = some c →
      c ∈ l ∨ acc = some c := by
  intro l
  induction l with
  | nil =>
    intro acc c h
    exact Or.inr h
  | cons a l ih =>
    intro acc c h
    rcases ih _ c h with hmem | hacc
    · exact Or.inl (List.mem_cons_of_mem a hmem)
    · rcases acc with _ | b
      · dsimp only at hacc
        exact Or.inl (by rw [← Option.some.inj hacc]; exact List.mem_cons_self a l)
      · dsimp only at hacc
        split at hacc
        · exact Or.inl (by rw [← Option.some.inj hacc]; exact List.mem_cons_self a l)
        · exact Or.inr hacc

theorem nearestCourse_mem (s : VectorStore) (name : PyStr) (c : Course)
    (h : nearestCourse s name = some c) : c ∈ s.catalog := by
  rcases foldl_nearest_mem (s.dist name) s.catalog none c h with hm | habs
  · exact hm
  · cases habs

theorem resolve_none_of_far (s : VectorStore) (name : PyStr)
    (h : ∀ c ∈ s.catalog, s.threshold < s.dist name c.title) :
    resolve_course_name s name = none := by
  unfold resolve_course_name
  cases hn : nearestCourse s name with
  | none => rfl
  | some c =>
    have hc := nearestCourse_mem s name c hn
    have hlt := h c hc
    dsimp only
    rw [if_neg (by omega)]

theorem nearestCourse_singleton (s : VectorStore) (name : PyStr) (c : Course)
    (hcat : s.catalog = [c]) : nearestCourse s name = some c := by
  unfold nearestCourse
  rw [hcat]
  rfl

theorem resolve_singleton_close (s : VectorStore) (name : PyStr) (c : Course)
    (hcat : s.catalog = [c]) (hclose : s.dist name c.title ≤ s.threshold) :
    resolve_course_name s name = some c.title := by
  unfold resolve_course_name
  rw [nearestCourse_singleton s name c hcat]
  dsimp only
  rw [if_pos hclose]

theorem resolve_singleton_far (s : VectorStore) (name : PyStr) (c : Course)
    (hcat : s.catalog = [c]) (hfar : s.threshold < s.dist name c.title) :
    resolve_course_name s name = none := by
  unfold resolve_course_name
  rw [nearestCourse_singleton s name c hcat]
  dsimp only
  rw [if_neg (by omega)]

theorem resolve_empty (s : VectorStore) (name : PyStr) (hcat : s.catalog = []) :
    resolve_course_name s name = none := by
  have hnone : nearestCourse s name = none := by
    unfold nearestCourse
    rw [hcat]
    rfl
  unfold resolve_course_name
  rw [hnone]

/-- C5: fuzzy resolution over a one-course catalog ("Test Course on AI"):
the exact title, the partial name and the case variant all resolve to
"Test Course on AI" (whenever the black-box embedding places them within
the similarity threshold of the stored title, as it is expected to),
"Nonexistent Course XYZ" resolves to nothing (when the embedding places
it beyond threshold), and over an empty catalog every input resolves to
nothing. -/
theorem resolve_course_name_fuzzy :
    (∀ (s : VectorStore) (c : Course), s.catalog = [c] →
      c.title = "Test Course on AI".data →
      ((s.dist "Test Course on AI".data c.title ≤ s.threshold →
          resolve_course_name s "Test Course on AI".data =
            some "Test Course on AI".data) ∧
        (s.dist "Test Course".data c.title ≤ s.threshold →
          resolve_course_name s "Test Course".data =
            some "Test Course on AI".data) ∧
        (s.dist "test course on ai".data c.title ≤ s.threshold →
          resolve_course_name s "test course on ai".data =
            some "Test Course on AI".data) ∧
        (s.threshold < s.dist "Nonexistent Course XYZ".data c.title →
          resolve_course_name s "Nonexistent Course XYZ".data = none))) ∧
      ∀ (s : VectorStore) (name : PyStr), s.catalog = [] →
        resolve_course_name s name = none := by
  constructor
  · intro s c hcat htitle
    refine ⟨?_, ?_, ?_, ?_⟩
    · intro hclose
      rw [resolve_singleton_close s _ c hcat hclose, htitle]
    · intro hclose
      rw [resolve_singleton_close s _ c hcat hclose, htitle]
    · intro hclose
      rw [resolve_singleton_close s _ c hcat hclose, htitle]
    · intro hfar
      exact resolve_singleton_far s _ c hcat hfar
  · intro s name hcat
    exact resolve_empty s name hcat

/-- Witness for C5: the concrete test store (one course, substring-based
stand-in embedding) exhibits all four resolutions, and the emptied store
resolves nothing. -/
theorem resolve_course_name_fuzzy_witness :
    (resolve_course_name testStore "Test Course on AI".data =
        some "Test Course on AI".data ∧
      resolve_course_name testStore "Test Course".data =
        some "Test Course on AI".data ∧
      resolve_course_name testStore "test course on ai".data =
        some "Test Course on AI".data ∧
      resolve_course_name testStore "Nonexistent Course XYZ".data = none) ∧
      resolve_course_name
        { catalog := [], content := [], max_results := 5, dist := testDist,
          threshold := 500 } "Anything".data = none := by
  have hmain := resolve_course_name_fuzzy
  have h1 := hmain.1 testStore testCourse rfl rfl
  exact ⟨⟨h1.1 (by decide), h1.2.1 (by decide), h1.2.2.1 (by decide),
    h1.2.2.2 (by decide)⟩, hmain.2 _ "Anything".data rfl⟩

/-- C2: when the course filter resolves to no catalog entry (every
catalog title lies beyond the similarity threshold from the requested
name), `search` returns a `SearchResults` whose error is exactly
`"No course found matching '<name>'"` and whose document list is empty —
as a returned value, not an exception (the embedding is a total
function) — and the Search Tool's `execute` returns that error string as
its result. -/
theorem search_unresolvable_course_error (s : VectorStore) (query name : PyStr)
    (ln : Option Nat) (limit : Option Nat) (srcs : List Source)
    (hfar : ∀ c ∈ s.catalog, s.threshold < s.dist name c.title) :
    (search s query (some name) ln limit).error = some (noCourseMsg name) ∧
      (search s query (some name) ln limit).documents = [] ∧
      (searchToolExecute s srcs query (some name) ln).1 = noCourseMsg name := by
  have hres := resolve_none_of_far s name hfar
  refine ⟨?_, ?_, ?_⟩
  · unfold search
    dsimp only
    rw [hres]
  · unfold search
    dsimp only
    rw [hres]
  · unfold searchToolExecute search
    dsimp only
    rw [hres]

/-- Witness for C2: searching the concrete test store for
"Non-Existent Course XYZ". -/
theorem search_unresolvable_course_error_witness :
    (search testStore "machine learning".data
        (some "Non-Existent Course XYZ".data) none none).error =
        some (noCourseMsg "Non-Existent Course XYZ".data) ∧
      (search testStore "machine learning".data
        (some "Non-Existent Course XYZ".data) none none).documents = [] ∧
      (searchToolExecute testStore [] "machine learning".data
        (some "Non-Existent Course XYZ".data) none).1 =
        noCourseMsg "Non-Existent Course XYZ".data :=
  search_unresolvable_course_error testStore "machine learning".data
    "Non-Existent Course XYZ".data none none [] (by decide)

/-! ## Search result properties -/

theorem searchChunks_top_mem (s : VectorStore) (query : PyStr) (resolved : Option PyStr)
    (lesson : Option Nat) (limit : Option Nat) (ch : CourseChunk)
    (h : ch ∈ (List.insertionSort
        (fun a b => s.dist query a.content ≤ s.dist query b.content)
        (s.content.filter (chunkFilter resolved lesson))).take (limit.getD s.max_results)) :
    chunkFilter resolved lesson ch = true := by
  have h1 := List.take_subset _ _ h
  rw [List.mem_insertionSort] at h1
  exact (List.mem_filter.mp h1).2

theorem chunkFilter_lesson (resolved : Option PyStr) (k : Nat) (ch : CourseChunk)
    (h : chunkFilter resolved (some k) ch = true) : ch.lesson_number = some k := by
  unfold chunkFilter at h
  rw [Bool.and_eq_true] at h
  have h2 := h.2
  dsimp only at h2
  exact eq_of_beq h2

theorem chunkFilter_course (t : PyStr) (lesson : Option Nat) (ch : CourseChunk)
    (h : chunkFilter (some t) lesson ch = true) : ch.course_title = t := by
  unfold chunkFilter at h
  rw [Bool.and_eq_true] at h
  have h1 := h.1
  dsimp only at h1
  exact eq_of_beq h1

theorem searchChunks_spec (s : VectorStore) (query : PyStr) (resolved : Option PyStr)
    (lesson : Option Nat) (limit : Option Nat) :
    (∀ k, lesson = some k →
        ∀ m ∈ (searchChunks s query resolved lesson limit).metadata,
          m.lesson_number = some k) ∧
      (∀ t, resolved = some t →
        ∀ m ∈ (searchChunks s query resolved lesson limit).metadata,
          m.course_title = t) ∧
      (searchChunks s query resolved lesson limit).documents.length ≤
        limit.getD s.max_results ∧
      List.Pairwise (· ≤ ·) (searchChunks s query resolved lesson limit).distances := by
  refine ⟨?_, ?_, ?_, ?_⟩
  · intro k hk m hm
    subst hk
    unfold searchChunks at hm
    dsimp only at hm
    rcases List.mem_map.mp hm with ⟨ch, hch, rfl⟩
    exact chunkFilter_lesson resolved k ch (searchChunks_top_mem s query resolved _ limit ch hch)
  · intro t ht m hm
    subst ht
    unfold searchChunks at hm
    dsimp only at hm
    rcases List.mem_map.mp hm with ⟨ch, hch, rfl⟩
    exact chunkFilter_course t lesson ch (searchChunks_top_mem s query _ lesson limit ch hch)
  · unfold searchChunks
    dsimp only
    rw [List.length_map, List.length_take]
    exact Nat.min_le_left _ _
  · unfold searchChunks
    dsimp only
    rw [List.pairwise_map]
    letI : IsTotal CourseChunk
        (fun a b => s.dist query a.content ≤ s.dist query b.content) :=
      ⟨fun a b => Nat.le_total _ _⟩
    letI : IsTrans CourseChunk
        (fun a b => s.dist query a.content ≤ s.dist query b.content) :=
      ⟨fun _ _ _ => Nat.le_trans⟩
    exact (List.sorted_insertionSort _ _).sublist (List.take_sublist _ _)

/-- C6: every result returned by `search` satisfies the applied filters
(with `lesson_number = k` every returned metadata's lesson number equals
`k`; with a course filter that resolved to title `t` every returned
metadata's course title equals `t`; both together are ANDed), at most
`limit` (default: the configured max results) results are returned, and
the returned distances are in increasing order. -/
theorem search_filters_limit_order (s : VectorStore) (query : PyStr)
    (cn : Option PyStr) (ln : Option Nat) (limit : Option Nat) :
    (∀ k, ln = some k →
        ∀ m ∈ (search s query cn ln limit).metadata, m.lesson_number = some k) ∧
      (∀ name t, cn = some name → resolve_course_name s name = some t →
        ∀ m ∈ (search s query cn ln limit).metadata, m.course_title = t) ∧
      (search s query cn ln limit).documents.length ≤ limit.getD s.max_results ∧
      List.Pairwise (· ≤ ·) (search s query cn ln limit).distances := by
  rcases cn with _ | name
  · have h := searchChunks_spec s query none ln limit
    refine ⟨h.1, ?_, h.2.2.1, h.2.2.2⟩
    intro name t hcn
    cases hcn
  · unfold search
    dsimp only
    cases hres : resolve_course_name s name with
    | none =>
      refine ⟨?_, ?_, ?_, ?_⟩ <;> simp
    | some t0 =>
      have h := searchChunks_spec s query (some t0) ln limit
      refine ⟨h.1, ?_, h.2.2.1, h.2.2.2⟩
      intro name2 t hcn hres2 m hm
      rcases Option.some.inj hcn with rfl
      rw [hres] at hres2
      rcases Option.some.inj hres2 with rfl
      exact h.2.1 t0 rfl m hm

/-- Witness for C6: the concrete test store with `lesson_number = 1` and
a resolving course filter. -/
theorem search_filters_limit_order_witness :
    (∀ k, (some 1 : Option Nat) = some k →
        ∀ m ∈ (search testStore "learning".data (some "Test Course".data)
          (some 1) none).metadata, m.lesson_number = some k) ∧
      (∀ name t, (some "Test Course".data : Option PyStr) = some name →
        resolve_course_name testStore name = some t →
        ∀ m ∈ (search testStore "learning".data (some "Test Course".data)
          (some 1) none).metadata, m.course_title = t) ∧
      (search testStore "learning".data (some "Test Course".data)
        (some 1) none).documents.length ≤ (none : Option Nat).getD testStore.max_results ∧
      List.Pairwise (· ≤ ·)
        (search testStore "learning".data (some "Test Course".data)
          (some 1) none).distances :=
  search_filters_limit_order testStore "learning".data
    (some "Test Course".data) (some 1) none

/-! ## Outline tool properties -/

/-- C8: for every resolvable course name (resolution succeeded and the
resolved title is in the catalog), the Outline Tool's `execute` returns
the rendered outline of that course, whose lesson lines are exactly the
course's lessons rearranged into ascending lesson-number order; in
particular, for the test corpus, `get_course_outline("Test Course")`
returns text containing "Test Course on AI", "Lesson 0", "Lesson 1",
"Lesson 2" in that relative order. -/
theorem outline_tool_ascending_order :
    (∀ (s : VectorStore) (name t : PyStr) (c : Course),
        resolve_course_name s name = some t →
        s.catalog.find? (fun cc => cc.title == t) = some c →
        outlineToolExecute s name = renderOutline c ∧
          List.Pairwise (fun a b => a.lesson_number ≤ b.lesson_number)
            (sortLessons c.lessons) ∧
          (sortLessons c.lessons).Perm c.lessons) ∧
      ∀ (s : VectorStore), s.catalog = [testCourse] →
        s.dist "Test Course".data "Test Course on AI".data ≤ s.threshold →
        containsInOrder ["Test Course on AI".data, "Lesson 0".data,
          "Lesson 1".data, "Lesson 2".data]
          (outlineToolExecute s "Test Course".data) = true := by
  constructor
  · intro s name t c hres hfind
    refine ⟨?_, ?_, ?_⟩
    · unfold outlineToolExecute
      rw [hres]
      dsimp only
      rw [hfind]
    · unfold sortLessons
      letI : IsTotal Lesson (fun a b => a.lesson_number ≤ b.lesson_number) :=
        ⟨fun a b => Nat.le_total _ _⟩
      letI : IsTrans Lesson (fun a b => a.lesson_number ≤ b.lesson_number) :=
        ⟨fun _ _ _ => Nat.le_trans⟩
      exact List.sorted_insertionSort _ _
    · exact List.perm_insertionSort _ _
  · intro s hcat hclose
    have hres : resolve_course_name s "Test Course".data = some testCourse.title :=
      resolve_singleton_close s _ testCourse hcat hclose
    unfold outlineToolExecute
    rw [hres]
    dsimp only
    rw [hcat]
    decide

/-- Witness for C8: the concrete test store. -/
theorem outline_tool_ascending_order_witness :
    (outlineToolExecute testStore "Test Course".data = renderOutline testCourse ∧
        List.Pairwise (fun a b => a.lesson_number ≤ b.lesson_number)
          (sortLessons testCourse.lessons) ∧
        (sortLessons testCourse.lessons).Perm testCourse.lessons) ∧
      containsInOrder ["Test Course on AI".data, "Lesson 0".data,
        "Lesson 1".data, "Lesson 2".data]
        (outlineToolExecute testStore "Test Course".data) = true :=
  ⟨outline_tool_ascending_order.1 testStore "Test Course".data
      testCourse.title testCourse (by decide) (by decide),
    outline_tool_ascending_order.2 testStore rfl (by decide)⟩

/-! ## Source citation properties -/

/-- C4: (1) last-call-wins at the Search Tool — whatever `last_sources`
held before, after a second `execute` whose search succeeded with
matches, `last_sources` is exactly the citations of that second call's
results; (2) no carry-over at the Query Coordinator — the sources a
query returns do not depend on the sources tracked before the call; and
(3) the sources returned are exactly those read back from the registry
after this call's orchestration ran against the freshly reset
registry. -/
theorem sources_last_call_wins :
    (∀ (s : VectorStore) (srcs0 : List Source) (q1 : PyStr) (cn1 : Option PyStr)
        (ln1 : Option Nat) (q2 : PyStr) (cn2 : Option PyStr) (ln2 : Option Nat),
      (search s q2 cn2 ln2 none).error = none →
      (search s q2 cn2 ln2 none).documents ≠ [] →
      (searchToolExecute s (searchToolExecute s srcs0 q1 cn1 ln1).2 q2 cn2 ln2).2 =
        (search s q2 cn2 ln2 none).metadata.map (sourceOfMeta s)) ∧
      (∀ (engine : Engine) (maxRounds : Nat) (store : VectorStore)
          (sA sB : List Source) (history : List Message) (q : PyStr),
        (ragQuery engine maxRounds ⟨store, sA⟩ history q).2.1 =
          (ragQuery engine maxRounds ⟨store, sB⟩ history q).2.1) ∧
      ∀ (engine : Engine) (maxRounds : Nat) (tm : ToolManager)
          (history : List Message) (q : PyStr),
        (ragQuery engine maxRounds tm history q).2.1 =
          get_last_sources
            (generate_response engine (reset_sources tm) history q maxRounds).2.1 := by
  refine ⟨?_, ?_, ?_⟩
  · intro s srcs0 q1 cn1 ln1 q2 cn2 ln2 herr hne
    conv_lhs => rw [searchToolExecute]
    rw [herr]
    dsimp only
    rw [if_neg (by rw [List.isEmpty_iff]; exact hne)]
  · intro engine maxRounds store sA sB history q
    rfl
  · intro engine maxRounds tm history q
    rfl

/-- Witness for C4: two sequential searches over the concrete test
store, and the coordinator run with the always-tool-use stub engine
starting from two different stale source lists. -/
theorem sources_last_call_wins_witness :
    (searchToolExecute testStore
        (searchToolExecute testStore [] "machine learning".data none none).2
        "deep learning".data none none).2 =
        (search testStore "deep learning".data none none none).metadata.map
          (sourceOfMeta testStore) ∧
      (ragQuery stubToolEngine 2
          ⟨testStore, [⟨"stale".data, none⟩]⟩ [] "What is AI?".data).2.1 =
        (ragQuery stubToolEngine 2 ⟨testStore, []⟩ [] "What is AI?".data).2.1 :=
  ⟨sources_last_call_wins.1 testStore [] "machine learning".data none none
      "deep learning".data none none (by decide) (by decide),
    sources_last_call_wins.2.1 stubToolEngine 2 testStore
      [⟨"stale".data, none⟩] [] [] "What is AI?".data⟩

/-! ## Orchestrator properties -/

theorem runRounds_trace_length (engine : Engine) :
    ∀ (n : Nat) (tm : ToolManager) (msgs : List Message),
      (runRounds engine n tm msgs).2.2.length ≤ n + 1 := by
  intro n
  induction n with
  | zero =>
    intro tm msgs
    simp [runRounds]
  | succ n ih =>
    intro tm msgs
    rw [runRounds]
    cases h : engine.withTools msgs with
    | answer t => simp
    | toolUse calls =>
      dsimp only
      have := ih (dispatchCalls tm calls).2
        (msgs ++ [assistantToolMessage calls,
          toolResultsMessage (dispatchCalls tm calls).1])
      simp only [List.length_cons]
      omega

theorem runRounds_answer_nonempty (engine : Engine)
    (h1 : ∀ ms t, engine.withTools ms = EngineResponse.answer t → t ≠ [])
    (h2 : ∀ ms, engine.noTools ms ≠ []) :
    ∀ (n : Nat) (tm : ToolManager) (msgs : List Message),
      (runRounds engine n tm msgs).1 ≠ [] := by
  intro n
  induction n with
  | zero =>
    intro tm msgs
    exact h2 msgs
  | succ n ih =>
    intro tm msgs
    rw [runRounds]
    cases h : engine.withTools msgs with
    | answer t => exact h1 msgs t h
    | toolUse calls => exact ih _ _

/-- C1: for every reasoning-engine behavior (hence in particular for a
stub that requests tool use on every call), `generate_response`
performs at most the configured maximum number of tool-use rounds plus
one final call with tools disabled — the returned trace records one
entry per engine call, and its length is at most `maxRounds + 1` — and
terminates (it is a total function) returning a non-empty answer,
provided the engine only ever produces non-empty answer texts. -/
theorem orchestrator_round_bound (engine : Engine) (tm : ToolManager)
    (history : List Message) (query : PyStr) (maxRounds : Nat)
    (h1 : ∀ ms t, engine.withTools ms = EngineResponse.answer t → t ≠ [])
    (h2 : ∀ ms, engine.noTools ms ≠ []) :
    (generate_response engine tm history query maxRounds).2.2.length ≤ maxRounds + 1 ∧
      (generate_response engine tm history query maxRounds).1 ≠ [] :=
  ⟨runRounds_trace_length engine maxRounds tm _,
    runRounds_answer_nonempty engine h1 h2 maxRounds tm _⟩

/-- Witness for C1: the always-tool-use stub engine over the concrete
test registry, with the example bound of 2 rounds: at most 3 engine
calls and a non-empty final answer. -/
theorem orchestrator_round_bound_witness :
    (generate_response stubToolEngine testManager [] "What is machine learning?".data
        2).2.2.length ≤ 2 + 1 ∧
      (generate_response stubToolEngine testManager []
        "What is machine learning?".data 2).1 ≠ [] :=
  orchestrator_round_bound stubToolEngine testManager []
    "What is machine learning?".data 2
    (fun ms t h => by simp [stubToolEngine] at h)
    (fun ms => by
      show "Machine Learning is a subset of AI.".data ≠ []
      decide)


theorem dispatchCalls_length :
    ∀ (calls : List ToolCall) (tm : ToolManager),
      (dispatchCalls tm calls).1.length = calls.length := by
  intro calls
  induction calls with
  | nil => intro tm; rfl
  | cons c rest ih =>
    intro tm
    simp only [dispatchCalls, List.length_cons]
    rw [ih]

theorem dispatchCalls_ids :
    ∀ (calls : List ToolCall) (tm : ToolManager),
      (dispatchCalls tm calls).1.map blockResultId =
        calls.map (fun c => some c.id) := by
  intro calls
  induction calls with
  | nil => intro tm; rfl
  | cons c rest ih =>
    intro tm
    simp only [dispatchCalls, List.map_cons]
    rw [ih]
    rfl

theorem dispatchCalls_get :
    ∀ (calls : List ToolCall) (tm : ToolManager) (i : Nat)
      (hi : i < calls.length) (hb : i < (dispatchCalls tm calls).1.length),
      (dispatchCalls tm calls).1.get ⟨i, hb⟩ =
        Block.toolResult (calls.get ⟨i, hi⟩).id
          (execute_tool (dispatchCalls tm (calls.take i)).2
            (calls.get ⟨i, hi⟩).name (calls.get ⟨i, hi⟩).input).1 := by
  intro calls
  induction calls with
  | nil =>
    intro tm i hi hb
    cases hi
  | cons c rest ih =>
    intro tm i hi hb
    cases i with
    | zero => rfl
    | succ i =>
      have hi2 : i < rest.length := by
        simpa using hi
      have hb2 : i < (dispatchCalls (execute_tool tm c.name c.input).2 rest).1.length := by
        rw [dispatchCalls_length]
        exact hi2
      have := ih (execute_tool tm c.name c.input).2 i hi2 hb2
      simp only [dispatchCalls, List.get_cons_succ, List.take_succ_cons]
      exact this

/-- C3: when one round's engine response carries `N` tool invocations,
the orchestrator dispatches every one of them through the Tool Registry
(the `i`-th result block is the output of `execute_tool` on the `i`-th
invocation's name and input, in the registry state left by the previous
dispatches), and the next engine call's message list ends with a
user-role message containing exactly `N` `tool_result` blocks, the
`i`-th carrying the invocation id of the `i`-th request. -/
theorem tool_result_correlation (engine : Engine) (tm : ToolManager) (n : Nat)
    (msgs : List Message) (calls : List ToolCall)
    (h : engine.withTools msgs = EngineResponse.toolUse calls) :
    ((runRounds engine (n + 1) tm msgs).2.2 =
        msgs :: (runRounds engine n (dispatchCalls tm calls).2
          (msgs ++ [assistantToolMessage calls,
            toolResultsMessage (dispatchCalls tm calls).1])).2.2) ∧
      (msgs ++ [assistantToolMessage calls,
          toolResultsMessage (dispatchCalls tm calls).1]).getLast? =
        some (toolResultsMessage (dispatchCalls tm calls).1) ∧
      (toolResultsMessage (dispatchCalls tm calls).1).role = Role.user ∧
      (dispatchCalls tm calls).1.length = calls.length ∧
      (dispatchCalls tm calls).1.map blockResultId =
        calls.map (fun c => some c.id) ∧
      ∀ (i : Nat) (hi : i < calls.length) (hb : i < (dispatchCalls tm calls).1.length),
        (dispatchCalls tm calls).1.get ⟨i, hb⟩ =
          Block.toolResult (calls.get ⟨i, hi⟩).id
            (execute_tool (dispatchCalls tm (calls.take i)).2
              (calls.get ⟨i, hi⟩).name (calls.get ⟨i, hi⟩).input).1 := by
  refine ⟨?_, ?_, rfl, dispatchCalls_length calls tm, dispatchCalls_ids calls tm,
    dispatchCalls_get calls tm⟩
  · rw [runRounds, h]
  · rw [show msgs ++ [assistantToolMessage calls,
        toolResultsMessage (dispatchCalls tm calls).1] =
        (msgs ++ [assistantToolMessage calls]) ++
          [toolResultsMessage (dispatchCalls tm calls).1] by simp]
    exact List.getLast?_concat _

/-- Witness for C3: the stub engine whose single round requests two tool
invocations (a content search and an outline), dispatched against the
concrete test registry. -/
theorem tool_result_correlation_witness :
    ((runRounds stubTwoCallEngine (0 + 1) testManager
        [⟨Role.user, [Block.text "q".data]⟩]).2.2 =
        [⟨Role.user, [Block.text "q".data]⟩] ::
          (runRounds stubTwoCallEngine 0 (dispatchCalls testManager stubTwoCalls).2
            ([⟨Role.user, [Block.text "q".data]⟩] ++
              [assistantToolMessage stubTwoCalls,
                toolResultsMessage (dispatchCalls testManager stubTwoCalls).1])).2.2) ∧
      (([⟨Role.user, [Block.text "q".data]⟩] : List Message) ++
          [assistantToolMessage stubTwoCalls,
            toolResultsMessage (dispatchCalls testManager stubTwoCalls).1]).getLast? =
        some (toolResultsMessage (dispatchCalls testManager stubTwoCalls).1) ∧
      (toolResultsMessage (dispatchCalls testManager stubTwoCalls).1).role = Role.user ∧
      (dispatchCalls testManager stubTwoCalls).1.length = stubTwoCalls.length ∧
      (dispatchCalls testManager stubTwoCalls).1.map blockResultId =
        stubTwoCalls.map (fun c => some c.id) ∧
      ∀ (i : Nat) (hi : i < stubTwoCalls.length)
        (hb : i < (dispatchCalls testManager stubTwoCalls).1.length),
        (dispatchCalls testManager stubTwoCalls).1.get ⟨i, hb⟩ =
          Block.toolResult (stubTwoCalls.get ⟨i, hi⟩).id
            (execute_tool (dispatchCalls testManager (stubTwoCalls.take i)).2
              (stubTwoCalls.get ⟨i, hi⟩).name (stubTwoCalls.get ⟨i, hi⟩).input).1 :=
  tool_result_correlation stubTwoCallEngine testManager 0
    [⟨Role.user, [Block.text "q".data]⟩] stubTwoCalls rfl

/-! ## Session FIFO eviction -/

theorem pushExchange_eq_drop (bound : Nat) (h : List Exchange) (u a : PyStr) :
    pushExchange bound h u a =
      (h ++ [(u, a)]).drop ((h ++ [(u, a)]).length - bound) := by
  show (if bound < (h ++ [(u, a)]).length then
      (h ++ [(u, a)]).drop ((h ++ [(u, a)]).length - bound)
    else h ++ [(u, a)]) =
    (h ++ [(u, a)]).drop ((h ++ [(u, a)]).length - bound)
  split
  · rfl
  · have hz : (h ++ [(u, a)]).length - bound = 0 := by omega
    rw [hz, List.drop_zero]

theorem foldl_pushExchange (bound : Nat) :
    ∀ (es : List Exchange) (init : List Exchange), init.length ≤ bound →
      List.foldl (fun h e => pushExchange bound h e.1 e.2) init es =
        (init ++ es).drop ((init ++ es).length - bound) := by
  intro es
  induction es with
  | nil =>
    intro init hinit
    have hz : (init ++ []).length - bound = 0 := by
      rw [List.append_nil]
      omega
    rw [List.foldl_nil, hz, List.drop_zero, List.append_nil]
  | cons e es ih =>
    intro init hinit
    rw [List.foldl_cons]
    have hstep : pushExchange bound init e.1 e.2 =
        (init ++ [e]).drop ((init ++ [e]).length - bound) := by
      rw [pushExchange_eq_drop]
    have hlen : (pushExchange bound init e.1 e.2).length ≤ bound := by
      rw [hstep, List.length_drop]
      omega
    rw [ih _ hlen, hstep]
    have hd : (init ++ [e]).length - bound ≤ (init ++ [e]).length := by omega
    have h1 : (init ++ [e]).drop ((init ++ [e]).length - bound) ++ es =
        ((init ++ [e]) ++ es).drop ((init ++ [e]).length - bound) :=
      (List.drop_append_of_le_length hd).symm
    have hassoc : init ++ e :: es = (init ++ [e]) ++ es := by simp
    rw [h1, List.drop_drop, hassoc]
    congr 1
    rw [List.length_drop]
    have h2 : ((init ++ [e]) ++ es).length = (init ++ [e]).length + es.length :=
      List.length_append _ _
    omega

theorem foldl_add_exchange_proj (bound : Nat) :
    ∀ (ops : List (Nat × Exchange)) (st : SessionStore) (i : Nat),
      (List.foldl (fun s op => add_exchange bound s op.1 op.2.1 op.2.2) st ops) i =
        List.foldl (fun h e => pushExchange bound h e.1 e.2) (st i)
          ((ops.filter (fun op => op.1 == i)).map (fun op => op.2)) := by
  intro ops
  induction ops with
  | nil => intro st i; rfl
  | cons op ops ih =>
    intro st i
    rw [List.foldl_cons]
    rw [ih]
    by_cases hop : op.1 = i
    · have hbeq : (op.1 == i) = true := beq_iff_eq.mpr hop
      have hupd : add_exchange bound st op.1 op.2.1 op.2.2 i =
          pushExchange bound (st i) op.2.1 op.2.2 := by
        unfold add_exchange
        rw [if_pos hop.symm]
      simp only [List.filter_cons, hbeq, if_true, List.map_cons, List.foldl_cons, hupd]
    · have hbeq : (op.1 == i) = false := beq_eq_false_iff_ne.mpr hop
      have hupd : add_exchange bound st op.1 op.2.1 op.2.2 i = st i := by
        unfold add_exchange
        rw [if_neg (fun hc => hop hc.symm)]
      simp only [List.filter_cons, hbeq, Bool.false_eq_true, if_false, hupd]

/-- C7: starting from the empty store, after any interleaved sequence of
`add_exchange` operations each session's history is exactly the most
recent `bound`-many of the pairs added to that session, in chronological
order (FIFO eviction of the oldest), and its length never exceeds the
bound. -/
theorem session_fifo_eviction (bound : Nat) (ops : List (Nat × Exchange)) (i : Nat) :
    (List.foldl (fun st op => add_exchange bound st op.1 op.2.1 op.2.2)
        emptySessions ops) i =
      ((ops.filter (fun op => op.1 == i)).map (fun op => op.2)).drop
        (((ops.filter (fun op => op.1 == i)).map (fun op => op.2)).length - bound) ∧
      ((List.foldl (fun st op => add_exchange bound st op.1 op.2.1 op.2.2)
        emptySessions ops) i).length ≤ bound := by
  have hproj := foldl_add_exchange_proj bound ops emptySessions i
  have hfold := foldl_pushExchange bound
    ((ops.filter (fun op => op.1 == i)).map (fun op => op.2)) [] (by simp)
  rw [List.nil_append] at hfold
  have he : emptySessions i = ([] : List Exchange) := rfl
  rw [he] at hproj
  constructor
  · rw [hproj]
    exact hfold
  · rw [hproj, hfold, List.length_drop]
    omega


/-- Witness for C7: with bound 2, session 0 of the concrete operation
sequence retains exactly its two most recent pairs. -/
theorem session_fifo_eviction_witness :
    (List.foldl (fun st op => add_exchange 2 st op.1 op.2.1 op.2.2)
        emptySessions sessionOpsFix) 0 =
      ((sessionOpsFix.filter (fun op => op.1 == 0)).map (fun op => op.2)).drop
        (((sessionOpsFix.filter (fun op => op.1 == 0)).map
          (fun op => op.2)).length - 2) ∧
      ((List.foldl (fun st op => add_exchange 2 st op.1 op.2.1 op.2.2)
        emptySessions sessionOpsFix) 0).length ≤ 2 :=
  session_fifo_eviction 2 sessionOpsFix 0

end RagSpec
